import Mathlib

/- Verification development for the session-generator bot (src/bot.py).

   The bot walks a Telegram user through phone → login code → optional 2FA
   password, producing a Telethon .session file that is sent back to the chat.
   We shallowly embed the conversation handlers as pure functions.  Backend
   outcomes (Telethon calls that may raise) are passed in as explicit oracle
   values; observable side effects (messages sent, connect/disconnect calls,
   sign-in calls, file unlinks, log records, user_data.clear calls) are
   collected in an event trace.  The per-chat context.user_data dictionary is
   the UserData record; a handler returns (conversation result, final
   user_data, event trace). -/

/- Embedding of Python str.strip(): drop whitespace from both ends. -/
def pyStrip (s : String) : String :=
  String.mk (((s.data.dropWhile Char.isWhitespace).reverse.dropWhile Char.isWhitespace).reverse)

/- Embedding of Python phone.startswith("+") for the single-character prefix. -/
def startsWithPlus (s : String) : Bool :=
  match s.data with
  | [] => false
  | c :: _ => c == '+'

/- Embedding of Python len() on a string. -/
def strLen (s : String) : Nat := s.data.length

/- Embedding of Python s.replace(c, "") for a single-character pattern c:
   removes every occurrence of c. -/
def removeAll (c : Char) (s : String) : String :=
  String.mk (s.data.filter (fun a => a ≠ c))

/- bot.py line 44: phone.replace(" ", "").replace("-", ""). -/
def sanitize (phone : String) : String :=
  removeAll '-' (removeAll ' ' phone)

/- bot.py lines 42-46: make_session_filename. -/
def make_session_filename (phone : String) : String :=
  sanitize phone ++ ".session"

/- bot.py line 38: ASK_PHONE, WAIT_CODE, WAIT_2FA = range(3). -/
def ASK_PHONE : Nat := 0
def WAIT_CODE : Nat := 1
def WAIT_2FA : Nat := 2

/- Observable effects of one handler invocation. -/
inductive Ev where
  | msg (text : String)
  | doc (path caption : String)
  | connect
  | sendCodeRequest (phone : String)
  | signIn (ok : Bool)
  | disconnectCall (wasConnected : Bool)
  | unlink (path : String)
  | logWarn
  | logInfo
  | logExc
  | clearData
deriving DecidableEq, Repr

/- Result of a python-telegram-bot conversation handler: either the next
   conversation state, or ConversationHandler.END. -/
inductive HandlerResult where
  | state (s : Nat)
  | endConv
deriving DecidableEq, Repr

/- The per-chat context.user_data store.  client is the stored Telethon
   client object when present; the Bool records whether it is connected. -/
structure UserData where
  phone : Option String
  client : Option Bool
  session_path : Option String
deriving DecidableEq, Repr

def emptyUD : UserData := ⟨none, none, none⟩

/- Environment of safe_send_file: filesystem and send outcomes, plus the
   DELETE_AFTER_SEND configuration flag (bot.py line 26). -/
structure FileWorld where
  fileExists : Bool
  sendOk : Bool
  deleteAfterSend : Bool
  unlinkFails : Bool
  journalExists : Bool
  journalUnlinkFails : Bool
deriving DecidableEq, Repr

/- bot.py lines 49-76: safe_send_file.  If the file is missing, report and
   return.  If sending raises, log and report.  On success, when
   DELETE_AFTER_SEND is set: unlink the file (a raise is logged as a
   warning), then unlink the -journal companion if it exists (a raise is
   silently swallowed by a bare except: pass), then log an info record. -/
def safe_send_file (w : FileWorld) (path caption : String) : List Ev :=
  if !w.fileExists then
    [.msg "❌ Session file not found."]
  else if !w.sendOk then
    [.logExc, .msg "❌ Failed to send session file."]
  else
    .doc path caption ::
      (if w.deleteAfterSend then
        (if w.unlinkFails then [Ev.logWarn] else [Ev.unlink path]) ++
        (if w.journalExists && !w.journalUnlinkFails then
          [Ev.unlink (path ++ "-journal")]
        else []) ++
        [Ev.logInfo]
      else [])

/- bot.py lines 87-97: cancel_cmd.  Reply, disconnect the stored client if
   any (exceptions swallowed), clear user_data, END. -/
def cancel_cmd (ud : UserData) : HandlerResult × UserData × List Ev :=
  (.endConv, emptyUD,
    .msg "❎ Cancelled." ::
      (match ud.client with
       | some c => [Ev.disconnectCall c]
       | none => []) ++
      [Ev.clearData])

/- bot.py lines 100-102: gensession_start. -/
def gensession_start : HandlerResult × List Ev :=
  (.state ASK_PHONE,
   [.msg "📱 Send your phone number in international format (e.g. +919876543210)."])

/- bot.py line 107: the rejection test on the stripped phone text:
   not phone or not phone.startswith("+") or len(phone) < 7. -/
def phone_guard (phone : String) : Bool :=
  phone.data.isEmpty || !startsWithPlus phone || decide (strLen phone < 7)

/- Outcome of the connect + send_code_request block in receive_phone:
   success, PhoneNumberInvalidError from send_code_request, a raise from
   connect itself, or any other raise after a successful connect. -/
inductive PhoneStepResult where
  | ok
  | phoneNumberInvalid
  | connectError
  | sendCodeError
deriving DecidableEq, Repr

/- bot.py lines 105-141: receive_phone.  Strip the text; on a guard failure
   re-prompt and stay in ASK_PHONE.  Otherwise create the client, store
   phone, client and session_path, then connect and request a code; on
   failure reply, disconnect, clear user_data and END. -/
def receive_phone (text : String) (ud : UserData) (r : PhoneStepResult) :
    HandlerResult × UserData × List Ev :=
  if phone_guard (pyStrip text) then
    (.state ASK_PHONE, ud, [.msg "⚠️ Invalid phone. Send again starting with +countrycode."])
  else
    match r with
    | .ok =>
        (.state WAIT_CODE,
         { phone := some (pyStrip text), client := some true,
           session_path := some (make_session_filename (pyStrip text)) },
         [.msg "🔄 Sending login code to Telegram...", .connect,
          .sendCodeRequest (pyStrip text),
          .msg "✉️ Code sent! Please enter the code you received."])
    | .phoneNumberInvalid =>
        (.endConv, emptyUD,
         [.msg "🔄 Sending login code to Telegram...", .connect,
          .msg "❌ Invalid phone number. Try again with /gensession.",
          .disconnectCall true, .clearData])
    | .connectError =>
        (.endConv, emptyUD,
         [.msg "🔄 Sending login code to Telegram...", .logExc,
          .msg "❌ Error sending code. Try again later.",
          .disconnectCall false, .clearData])
    | .sendCodeError =>
        (.endConv, emptyUD,
         [.msg "🔄 Sending login code to Telegram...", .connect, .logExc,
          .msg "❌ Error sending code. Try again later.",
          .disconnectCall true, .clearData])

/- Outcome of client.sign_in(phone=..., code=...) in receive_code. -/
inductive SignInCodeResult where
  | ok
  | passwordNeeded
  | codeInvalid
  | codeExpired
  | otherError
deriving DecidableEq, Repr

/- bot.py lines 144-185: receive_code.  Missing stored fields: reply, clear,
   END.  sign_in ok: reply, disconnect, send the session file, clear, END.
   SessionPasswordNeededError: reply and go to WAIT_2FA keeping everything.
   Invalid or expired code or any other raise: reply, disconnect, clear, END. -/
def receive_code (_text : String) (ud : UserData) (r : SignInCodeResult) (w : FileWorld) :
    HandlerResult × UserData × List Ev :=
  match ud.client, ud.phone, ud.session_path with
  | some c, some _phone, some sp =>
      match r with
      | .ok =>
          (.endConv, emptyUD,
           [Ev.signIn true, Ev.msg "✅ Signed in successfully! Preparing session file...",
            Ev.disconnectCall c] ++
           safe_send_file w sp "Here is your session file." ++
           [Ev.clearData])
      | .passwordNeeded =>
          (.state WAIT_2FA, ud,
           [.signIn false, .msg "🔒 This account has 2FA enabled. Please send your password now."])
      | .codeInvalid =>
          (.endConv, emptyUD,
           [.signIn false, .msg "❌ Invalid code. Start again with /gensession.",
            .disconnectCall c, .clearData])
      | .codeExpired =>
          (.endConv, emptyUD,
           [.signIn false, .msg "❌ Code expired. Use /gensession to retry.",
            .disconnectCall c, .clearData])
      | .otherError =>
          (.endConv, emptyUD,
           [.signIn false, .logExc, .msg "❌ Unexpected error during sign-in.",
            .disconnectCall c, .clearData])
  | _, _, _ =>
      (.endConv, emptyUD,
       [.msg "⚠️ Session expired or internal error. Start again with /gensession.",
        .clearData])

/- Outcome of client.sign_in(password=...) in receive_2fa.  passwordIncorrect
   is the branch the source catches as SessionPasswordNeededError and answers
   with the wrong-password message. -/
inductive SignIn2faResult where
  | ok
  | passwordIncorrect
  | otherError
deriving DecidableEq, Repr

/- bot.py lines 188-217: receive_2fa.  Missing stored fields: reply, clear,
   END.  Otherwise sign in with the password; every branch then runs the
   finally block, which disconnects again and clears user_data, and the
   function returns END on every path. -/
def receive_2fa (_text : String) (ud : UserData) (r : SignIn2faResult) (w : FileWorld) :
    HandlerResult × UserData × List Ev :=
  match ud.client, ud.session_path with
  | some c, some sp =>
      match r with
      | .ok =>
          (.endConv, emptyUD,
           [Ev.signIn true, Ev.msg "✅ 2FA accepted! Preparing session file...",
            Ev.disconnectCall c] ++
           safe_send_file w sp "Here is your session file." ++
           [Ev.disconnectCall false, Ev.clearData])
      | .passwordIncorrect =>
          (.endConv, emptyUD,
           [.signIn false, .msg "❌ Password incorrect. Try again or /cancel.",
            .disconnectCall c, .clearData])
      | .otherError =>
          (.endConv, emptyUD,
           [.signIn false, .logExc, .msg "❌ Error with 2FA sign-in. Try again.",
            .disconnectCall c, .clearData])
  | _, _ =>
      (.endConv, emptyUD,
       [.msg "⚠️ Session expired or internal error. Start again with /gensession.",
        .clearData])

/- Event classifiers used to state trace properties. -/
def isSignInOk : Ev → Bool
  | .signIn true => true
  | _ => false

def isRelease : Ev → Bool
  | .disconnectCall true => true
  | _ => false

def isDisconnectCall : Ev → Bool
  | .disconnectCall _ => true
  | _ => false

def isClear : Ev → Bool
  | .clearData => true
  | _ => false

def isUnlink : Ev → Bool
  | .unlink _ => true
  | _ => false

def isDoc : Ev → Bool
  | .doc _ _ => true
  | _ => false

def isMsg : Ev → Bool
  | .msg _ => true
  | _ => false

def isErrLog : Ev → Bool
  | .logWarn => true
  | .logExc => true
  | _ => false

def countEv (p : Ev → Bool) : List Ev → Nat
  | [] => 0
  | e :: es => (if p e then 1 else 0) + countEv p es

/- A handler result that returns END leaves user_data empty. -/
def cleanOnEnd (res : HandlerResult × UserData × List Ev) : Bool :=
  match res.1 with
  | .endConv => res.2.1 == emptyUD
  | _ => true

/- A handler result that returns END performed exactly one user_data.clear. -/
def clearsOnEnd (res : HandlerResult × UserData × List Ev) : Bool :=
  match res.1 with
  | .endConv => countEv isClear res.2.2 == 1
  | _ => true

/- Scenario A of the spec: /gensession, phone +919876543210, backend accepts,
   then the correct code with no second factor required. -/
def scenarioA (w : FileWorld) : HandlerResult × UserData × List Ev :=
  match receive_phone "+919876543210" emptyUD .ok with
  | (_, ud1, evs1) =>
      match receive_code "12345" ud1 .ok w with
      | (res, ud2, evs2) => (res, ud2, evs1 ++ evs2)

/- A FileWorld where the artifact exists and sending succeeds. -/
def fw0 : FileWorld :=
  { fileExists := true, sendOk := true, deleteAfterSend := false,
    unlinkFails := false, journalExists := false, journalUnlinkFails := false }

/- A FileWorld where the artifact exists, sending succeeds, deletion is on,
   the journal companion exists and its unlink raises. -/
def wJournalErr : FileWorld :=
  { fileExists := true, sendOk := true, deleteAfterSend := true,
    unlinkFails := false, journalExists := true, journalUnlinkFails := true }

theorem countEv_append (p : Ev → Bool) (xs ys : List Ev) :
    countEv p (xs ++ ys) = countEv p xs + countEv p ys := by
  induction xs with
  | nil => simp [countEv]
  | cons x xs ih => simp [countEv, ih]; omega

/- safe_send_file never emits sign-in events. -/
theorem countEv_signInOk_safe_send_file (w : FileWorld) (p c : String) :
    countEv isSignInOk (safe_send_file w p c) = 0 := by
  obtain ⟨fe, so, das, uf, je, juf⟩ := w
  cases fe <;> cases so <;> cases das <;> cases uf <;> cases je <;> cases juf <;>
    simp [safe_send_file, countEv, countEv_append, isSignInOk]

/- safe_send_file never emits disconnect events. -/
theorem countEv_release_safe_send_file (w : FileWorld) (p c : String) :
    countEv isRelease (safe_send_file w p c) = 0 := by
  obtain ⟨fe, so, das, uf, je, juf⟩ := w
  cases fe <;> cases so <;> cases das <;> cases uf <;> cases je <;> cases juf <;>
    simp [safe_send_file, countEv, countEv_append, isRelease]

/- safe_send_file never emits user_data.clear events. -/
theorem countEv_clear_safe_send_file (w : FileWorld) (p c : String) :
    countEv isClear (safe_send_file w p c) = 0 := by
  obtain ⟨fe, so, das, uf, je, juf⟩ := w
  cases fe <;> cases so <;> cases das <;> cases uf <;> cases je <;> cases juf <;>
    simp [safe_send_file, countEv, countEv_append, isClear]

/-- C9: two raw phone strings that sanitize identically (spaces and hyphens
    stripped) yield the same artifact path; make_session_filename is a pure
    function appending the fixed .session suffix to the sanitized phone. -/
theorem sanitize_eq_implies_same_filename (s t : String)
    (h : sanitize s = sanitize t) :
    make_session_filename s = make_session_filename t := by
  simp [make_session_filename, h]

/-- C9 witness: the concrete pair from the spec normalizes identically and
    gets the same artifact path. -/
theorem sanitize_eq_implies_same_filename_witness :
    sanitize "+91 98-76-54-32-10" = sanitize "+919876543210" ∧
    make_session_filename "+91 98-76-54-32-10" = make_session_filename "+919876543210" :=
  ⟨by decide, sanitize_eq_implies_same_filename "+91 98-76-54-32-10" "+919876543210" (by decide)⟩

/-- C2 counterexample: in Scenario A the artifact is never delivered at the
    claimed path 919876543210.session — make_session_filename keeps the
    leading plus sign, so the path is +919876543210.session. -/
theorem scenarioA_not_delivered_at_plain_digits_path :
    Ev.doc "919876543210.session" "Here is your session file." ∉ (scenarioA fw0).2.2 ∧
    make_session_filename "+919876543210" = "+919876543210.session" := by
  decide

/-- C2 (amended): in Scenario A, when the artifact exists on disk and the
    send succeeds, the run ends the conversation, clears user_data, and
    delivers the artifact at path +919876543210.session (the phone with
    spaces and hyphens stripped — the leading plus kept — and the .session
    suffix appended). -/
theorem scenarioA_delivers_at_plus_path :
    ∀ (d u j ju : Bool),
      (scenarioA ⟨true, true, d, u, j, ju⟩).1 = .endConv ∧
      (scenarioA ⟨true, true, d, u, j, ju⟩).2.1 = emptyUD ∧
      Ev.doc "+919876543210.session" "Here is your session file."
        ∈ (scenarioA ⟨true, true, d, u, j, ju⟩).2.2 := by
  decide

/-- C1: contrary to the claim, a wrong second-factor password does NOT keep
    the conversation in AwaitingSecondFactor: receive_2fa replies with the
    wrong-password message but its finally block disconnects the client and
    clears user_data, and the handler returns END on that branch (as it does
    on every other sign-in error branch). -/
theorem receive_2fa_wrong_password_ends_conversation :
    receive_2fa "secret" ⟨some "+919876543210", some true, some "+919876543210.session"⟩
        .passwordIncorrect fw0 =
      (.endConv, emptyUD,
       [.signIn false, .msg "❌ Password incorrect. Try again or /cancel.",
        .disconnectCall true, .clearData]) ∧
    (receive_2fa "secret" ⟨some "+919876543210", some true, some "+919876543210.session"⟩
        .otherError fw0).1 = .endConv := by
  decide

/-- C3: with a live stored client, an invalid or expired code makes
    receive_code reply with the specific message, disconnect the client,
    clear user_data and return END; a second-factor-required signal instead
    moves to WAIT_2FA leaving user_data (and the connected client) untouched,
    with no disconnect and no clear. -/
theorem receive_code_error_and_2fa_transitions (text phone sp : String) (w : FileWorld) :
    receive_code text ⟨some phone, some true, some sp⟩ .codeInvalid w =
      (.endConv, emptyUD,
       [.signIn false, .msg "❌ Invalid code. Start again with /gensession.",
        .disconnectCall true, .clearData]) ∧
    receive_code text ⟨some phone, some true, some sp⟩ .codeExpired w =
      (.endConv, emptyUD,
       [.signIn false, .msg "❌ Code expired. Use /gensession to retry.",
        .disconnectCall true, .clearData]) ∧
    receive_code text ⟨some phone, some true, some sp⟩ .passwordNeeded w =
      (.state WAIT_2FA, ⟨some phone, some true, some sp⟩,
       [.signIn false, .msg "🔒 This account has 2FA enabled. Please send your password now."]) :=
  ⟨rfl, rfl, rfl⟩

/-- C6: from any conversation state (any user_data contents), /cancel sends
    the cancellation message, ends the conversation, leaves user_data empty,
    performs exactly one clear, effectively releases the handle exactly when
    a connected client was stored (a no-op when no client was ever acquired
    or it was already released), and issues a disconnect call only when a
    client object is present. -/
theorem cancel_always_aborts_and_cleans (ud : UserData) :
    (cancel_cmd ud).1 = .endConv ∧
    (cancel_cmd ud).2.1 = emptyUD ∧
    Ev.msg "❎ Cancelled." ∈ (cancel_cmd ud).2.2 ∧
    countEv isClear (cancel_cmd ud).2.2 = 1 ∧
    countEv isRelease (cancel_cmd ud).2.2 = (if ud.client = some true then 1 else 0) ∧
    countEv isDisconnectCall (cancel_cmd ud).2.2 =
      (match ud.client with | some _ => 1 | none => 0) := by
  obtain ⟨p, c, s⟩ := ud
  cases c with
  | none => simp [cancel_cmd, countEv, isClear, isRelease, isDisconnectCall]
  | some b =>
      cases b <;> simp [cancel_cmd, countEv, isClear, isRelease, isDisconnectCall]

/-- C4: any message whose stripped text fails the phone test — it does not
    start with a plus, or is shorter than 7 characters (the empty string
    included) — makes receive_phone re-prompt and stay in ASK_PHONE with
    user_data unchanged: no client is created, no field is stored, and the
    only effect is the re-prompt message. -/
theorem receive_phone_invalid_reprompts (t : String) (ud : UserData) (r : PhoneStepResult)
    (h : startsWithPlus (pyStrip t) = false ∨ strLen (pyStrip t) < 7) :
    receive_phone t ud r =
      (.state ASK_PHONE, ud,
       [.msg "⚠️ Invalid phone. Send again starting with +countrycode."]) := by
  have hg : phone_guard (pyStrip t) = true := by
    rcases h with h | h
    · simp [phone_guard, h]
    · simp [phone_guard, h]
  simp [receive_phone, hg]

/-- C4 witness: the input 12345678 (no leading plus) re-prompts and leaves
    the empty user_data untouched. -/
theorem receive_phone_invalid_reprompts_witness :
    (startsWithPlus (pyStrip "12345678") = false ∨ strLen (pyStrip "12345678") < 7) ∧
    receive_phone "12345678" emptyUD .ok =
      (.state ASK_PHONE, emptyUD,
       [.msg "⚠️ Invalid phone. Send again starting with +countrycode."]) :=
  ⟨by decide, receive_phone_invalid_reprompts "12345678" emptyUD .ok (by decide)⟩

/-- C5: for a phone that passes the input test, every failure of the
    connect / send-code step — backend rejects the number, connect raises,
    or the code request raises — ends the conversation at once with a user
    message, disconnects the client, and leaves user_data cleared; the
    handler never returns WAIT_CODE on these branches. -/
theorem receive_phone_backend_failure_aborts (t : String) (ud : UserData)
    (h : phone_guard (pyStrip t) = false) :
    receive_phone t ud .phoneNumberInvalid =
      (.endConv, emptyUD,
       [.msg "🔄 Sending login code to Telegram...", .connect,
        .msg "❌ Invalid phone number. Try again with /gensession.",
        .disconnectCall true, .clearData]) ∧
    receive_phone t ud .connectError =
      (.endConv, emptyUD,
       [.msg "🔄 Sending login code to Telegram...", .logExc,
        .msg "❌ Error sending code. Try again later.",
        .disconnectCall false, .clearData]) ∧
    receive_phone t ud .sendCodeError =
      (.endConv, emptyUD,
       [.msg "🔄 Sending login code to Telegram...", .connect, .logExc,
        .msg "❌ Error sending code. Try again later.",
        .disconnectCall true, .clearData]) := by
  simp [receive_phone, h]

/-- C5 witness: with the valid phone +919876543210, a backend rejection of
    the number aborts the conversation with cleared user_data. -/
theorem receive_phone_backend_failure_aborts_witness :
    phone_guard (pyStrip "+919876543210") = false ∧
    receive_phone "+919876543210" emptyUD .phoneNumberInvalid =
      (.endConv, emptyUD,
       [.msg "🔄 Sending login code to Telegram...", .connect,
        .msg "❌ Invalid phone number. Try again with /gensession.",
        .disconnectCall true, .clearData]) :=
  ⟨by decide,
   (receive_phone_backend_failure_aborts "+919876543210" emptyUD (by decide)).1⟩

/-- C7 counterexample: a journal-file deletion error is NOT logged — when the
    journal exists and its unlink raises, the bare except swallows it, so the
    trace holds no warning or exception record at all (only the document, the
    primary unlink, and the unconditional deleted info record). -/
theorem journal_unlink_error_not_logged :
    safe_send_file wJournalErr "p.session" "cap" =
      [.doc "p.session" "cap", .unlink "p.session", .logInfo] ∧
    countEv isErrLog (safe_send_file wJournalErr "p.session" "cap") = 0 := by
  decide

/-- C7 (amended): a missing artifact yields exactly the not-found message
    and no filesystem action; a document is delivered exactly when the file
    exists and the send succeeds; unlinks happen only on send success with
    the delete flag set — the primary unless its unlink raises, the journal
    when it exists and its unlink does not raise; a warning or exception is
    logged exactly for a send failure or a primary-unlink failure (a
    journal-unlink failure is silently ignored, not logged); and the user
    sees a message only for the missing-file and failed-send cases, never
    for a deletion error. -/
theorem safe_send_file_behavior (w : FileWorld) (p cap : String) :
    countEv isDoc (safe_send_file w p cap) =
      (if w.fileExists && w.sendOk then 1 else 0) ∧
    countEv isUnlink (safe_send_file w p cap) =
      (if w.fileExists && w.sendOk && w.deleteAfterSend then
        (if w.unlinkFails then 0 else 1) +
        (if w.journalExists && !w.journalUnlinkFails then 1 else 0)
      else 0) ∧
    countEv isErrLog (safe_send_file w p cap) =
      ((if w.fileExists && !w.sendOk then 1 else 0) +
       (if w.fileExists && w.sendOk && w.deleteAfterSend && w.unlinkFails then 1 else 0)) ∧
    countEv isMsg (safe_send_file w p cap) =
      (if !w.fileExists || !w.sendOk then 1 else 0) := by
  obtain ⟨fe, so, das, uf, je, juf⟩ := w
  cases fe <;> cases so <;> cases das <;> cases uf <;> cases je <;> cases juf <;>
    simp [safe_send_file, countEv, countEv_append, isDoc, isUnlink, isErrLog, isMsg]

/-- C8: on every path that completes a successful sign-in — receive_code
    succeeding without a second factor, or the composed run where
    receive_code signals second-factor-required and receive_2fa then
    succeeds — the trace holds exactly one successful sign-in call, exactly
    one effective handle release (a disconnect of a still-connected client;
    the extra disconnect in the receive_2fa finally block acts on an already
    released handle), and exactly one user_data clear, the handler returns
    END and user_data ends empty, whatever the delivery outcome. -/
theorem completed_paths_one_signin_one_release_one_clear
    (text pw phone sp : String) (w : FileWorld) :
    ((receive_code text ⟨some phone, some true, some sp⟩ .ok w).1 = .endConv ∧
     (receive_code text ⟨some phone, some true, some sp⟩ .ok w).2.1 = emptyUD ∧
     countEv isSignInOk (receive_code text ⟨some phone, some true, some sp⟩ .ok w).2.2 = 1 ∧
     countEv isRelease (receive_code text ⟨some phone, some true, some sp⟩ .ok w).2.2 = 1 ∧
     countEv isClear (receive_code text ⟨some phone, some true, some sp⟩ .ok w).2.2 = 1) ∧
    ((receive_2fa pw ⟨some phone, some true, some sp⟩ .ok w).1 = .endConv ∧
     (receive_2fa pw ⟨some phone, some true, some sp⟩ .ok w).2.1 = emptyUD ∧
     countEv isSignInOk (receive_2fa pw ⟨some phone, some true, some sp⟩ .ok w).2.2 = 1 ∧
     countEv isRelease (receive_2fa pw ⟨some phone, some true, some sp⟩ .ok w).2.2 = 1 ∧
     countEv isClear (receive_2fa pw ⟨some phone, some true, some sp⟩ .ok w).2.2 = 1) ∧
    (countEv isSignInOk
       ((receive_code text ⟨some phone, some true, some sp⟩ .passwordNeeded w).2.2 ++
        (receive_2fa pw
          (receive_code text ⟨some phone, some true, some sp⟩ .passwordNeeded w).2.1
          .ok w).2.2) = 1 ∧
     countEv isRelease
       ((receive_code text ⟨some phone, some true, some sp⟩ .passwordNeeded w).2.2 ++
        (receive_2fa pw
          (receive_code text ⟨some phone, some true, some sp⟩ .passwordNeeded w).2.1
          .ok w).2.2) = 1 ∧
     countEv isClear
       ((receive_code text ⟨some phone, some true, some sp⟩ .passwordNeeded w).2.2 ++
        (receive_2fa pw
          (receive_code text ⟨some phone, some true, some sp⟩ .passwordNeeded w).2.1
          .ok w).2.2) = 1) := by
  simp [receive_code, receive_2fa, countEv, countEv_append, isSignInOk, isRelease, isClear,
    countEv_signInOk_safe_send_file, countEv_release_safe_send_file,
    countEv_clear_safe_send_file]

/-- C10: every handler invocation that returns END — cancellation, both
    receive_phone abort branches, every receive_code and receive_2fa END
    branch including the missing-stored-client ones — leaves user_data empty
    and performs exactly one user_data clear, for all inputs, stored
    contents, backend outcomes and file worlds. -/
theorem end_paths_clear_user_data (t : String) (ud : UserData) (r1 : PhoneStepResult)
    (r2 : SignInCodeResult) (r3 : SignIn2faResult) (w : FileWorld) :
    cleanOnEnd (cancel_cmd ud) = true ∧ clearsOnEnd (cancel_cmd ud) = true ∧
    cleanOnEnd (receive_phone t ud r1) = true ∧ clearsOnEnd (receive_phone t ud r1) = true ∧
    cleanOnEnd (receive_code t ud r2 w) = true ∧ clearsOnEnd (receive_code t ud r2 w) = true ∧
    cleanOnEnd (receive_2fa t ud r3 w) = true ∧ clearsOnEnd (receive_2fa t ud r3 w) = true := by
  obtain ⟨p, c, s⟩ := ud
  refine ⟨?_, ?_, ?_, ?_, ?_, ?_, ?_, ?_⟩
  · cases c <;> simp [cancel_cmd, cleanOnEnd]
  · cases c <;> simp [cancel_cmd, clearsOnEnd, countEv, isClear]
  · cases hg : phone_guard (pyStrip t) <;> cases r1 <;>
      simp [receive_phone, hg, cleanOnEnd]
  · cases hg : phone_guard (pyStrip t) <;> cases r1 <;>
      simp [receive_phone, hg, clearsOnEnd, countEv, isClear]
  · cases c <;> cases p <;> cases s <;> cases r2 <;>
      simp [receive_code, cleanOnEnd]
  · cases c <;> cases p <;> cases s <;> cases r2 <;>
      simp [receive_code, clearsOnEnd, countEv, countEv_append, isClear,
        countEv_clear_safe_send_file]
  · cases c <;> cases p <;> cases s <;> cases r3 <;>
      simp [receive_2fa, cleanOnEnd]
  · cases c <;> cases p <;> cases s <;> cases r3 <;>
      simp [receive_2fa, clearsOnEnd, countEv, countEv_append, isClear,
        countEv_clear_safe_send_file]
